import Mathlib

/-!
# Verification of the two-stage stochastic renewable-portfolio engine

Shallow embedding of `src/scr/model.py` and the result-extraction section of
`src/scr/main.py`.  Numbers are modelled as `ℚ` (every numeric literal in the
source — 1000.0, 800.0, 2000.0, 0.3, demand values — is carried around
unchanged, never rounded, so exact rationals are faithful).  Pyomo model
objects are modelled as explicit records of index sets, parameter tables,
variable declarations, constraint lists and the objective expression, all
built in the same order and from the same data as the Python code builds them.
Python exceptions are modelled with `Except`.
-/

set_option linter.unusedVariables false

namespace Portfolio

/-- A row of the pandas `DataFrame` handed to `build_two_stage_model`:
a timestamp, a numeric `demand` value, and whatever other columns the
data-fetch step produced (modelled as an opaque list of rationals).
All columns of a pandas frame have the same length, so the frame is a
list of rows and `len(data_df)` is the number of rows. -/
structure Row where
  timestamp : String
  demand : ℚ
  extra : List ℚ
deriving DecidableEq, Repr, Inhabited

/-- The input `data_df`. -/
structure DataFrame where
  rows : List Row
deriving DecidableEq, Repr, Inhabited

/-- The demand column, `data_df["demand"]`. -/
def DataFrame.demandSeries (df : DataFrame) : List ℚ :=
  df.rows.map (·.demand)

/-- `chunk_size = len(data_df) // num_scenarios` (model.py line 30) for a
positive scenario count; the `num_scenarios = 0` division error is handled in
`build_two_stage_model` itself. -/
def chunkSize (df : DataFrame) (num_scenarios : ℕ) : ℕ :=
  df.rows.length / num_scenarios

/-- model.py lines 29–34: for `i in range(num_scenarios)`, slice
`data_df.iloc[i*chunk_size : (i+1)*chunk_size]` (Python slicing of the rows:
drop `i*chunk_size` rows, then take the next `chunk_size` rows) and keep that
slice's `demand` column. -/
def demand_scenarios (df : DataFrame) (num_scenarios : ℕ) : List (List ℚ) :=
  let c := chunkSize df num_scenarios
  (List.range num_scenarios).map fun i =>
    ((df.rows.drop (i * c)).take c).map (·.demand)

/-- The decision variables declared on the Pyomo model (model.py lines
56–66). -/
inductive PVar where
  | wind_capacity : PVar
  | solar_capacity : PVar
  | gen_wind (s t : ℕ) : PVar
  | gen_solar (s t : ℕ) : PVar
  | load_shed (s t : ℕ) : PVar
  | excess_cost (s : ℕ) : PVar
  | t_cvar : PVar
deriving DecidableEq, Repr, Inhabited

/-- Every `Var` in model.py is declared with `domain=NonNegativeReals`. -/
inductive VarDomain where
  | NonNegativeReals : VarDomain
deriving DecidableEq, Repr, Inhabited

/-- Pyomo expression trees as the source builds them: numeric constants,
variable references, references to the mutable `Param`s (`model.demand[s,t]`,
`model.cost_of_wind`, `model.cost_of_solar`, which stay symbolic because they
are `mutable=True`), and the arithmetic nodes Python's operators create. -/
inductive Expr where
  | const (q : ℚ) : Expr
  | var (x : PVar) : Expr
  | paramDemand (s t : ℕ) : Expr
  | paramCostWind : Expr
  | paramCostSolar : Expr
  | add (a b : Expr) : Expr
  | sub (a b : Expr) : Expr
  | mul (a b : Expr) : Expr
  | div (a b : Expr) : Expr
deriving DecidableEq, Repr, Inhabited

/-- A relational expression, `lhs <= rhs` or `lhs >= rhs`, as produced by the
constraint rules. -/
inductive Constr where
  | le (lhs rhs : Expr) : Constr
  | ge (lhs rhs : Expr) : Constr
deriving DecidableEq, Repr, Inhabited

/-- The exceptions the build can raise: `ZeroDivisionError` from
`len(data_df) // num_scenarios` with `num_scenarios = 0`, `ValueError` from
Python's `max()` on an empty sequence, and `PyomoException` from truth-testing
a non-constant Pyomo relational expression. -/
inductive PyError where
  | zeroDivisionError : PyError
  | valueError : PyError
  | pyomoException : PyError
deriving DecidableEq, Repr, Inhabited

/-- The constructed `ConcreteModel`: index sets, parameter values, variable
declarations with domains, the five constraint blocks (each indexed exactly by
the sets the `Constraint(...)` call ranges over), and the objective
expression. -/
structure Model where
  SCENARIOS : List ℕ
  TIME : List ℕ
  cost_of_wind : ℚ
  cost_of_solar : ℚ
  demand : List ((ℕ × ℕ) × ℚ)
  var_list : List (PVar × VarDomain)
  wind_gen_limit : List ((ℕ × ℕ) × Constr)
  solar_gen_limit : List ((ℕ × ℕ) × Constr)
  demand_constraint : List ((ℕ × ℕ) × Constr)
  excess_cost_constraint : List (ℕ × Constr)
  cvar_constraint : List (ℕ × Constr)
  obj : Expr
deriving DecidableEq, Repr, Inhabited

/-- The value of a constant Pyomo expression, `none` when the expression is
not constant: variable references and the mutable `Param`s are not constant,
so any expression mentioning them has no constant value. -/
def Expr.constVal : Expr → Option ℚ
  | .const q => some q
  | .var _ => none
  | .paramDemand _ _ => none
  | .paramCostWind => none
  | .paramCostSolar => none
  | .add a b => do pure ((← a.constVal) + (← b.constVal))
  | .sub a b => do pure ((← a.constVal) - (← b.constVal))
  | .mul a b => do pure ((← a.constVal) * (← b.constVal))
  | .div a b => do pure ((← a.constVal) / (← b.constVal))

/-- Python's builtin `max` applied to Pyomo expressions (model.py line 102).
On an empty sequence `max` raises `ValueError`.  Otherwise it folds over the
elements, truth-testing `item > best` at each step; for Pyomo operands `>`
builds a relational expression, and `bool()` of a relational expression is
only defined when both sides are constant — on non-constant sides Pyomo
raises `PyomoException` ("Cannot convert non-constant Pyomo expression to
bool").  A single element is returned without any comparison. -/
def pyMax (xs : List Expr) : Except PyError Expr :=
  match xs with
  | [] => .error .valueError
  | x :: rest =>
    rest.foldlM
      (fun best item =>
        match best.constVal, item.constVal with
        | some b, some i => .ok (if b < i then item else best)
        | _, _ => .error .pyomoException)
      x

/-- Python's `sum(...)` over a sequence of expressions: starts from the
constant `0` and folds `+` left to right. -/
def pySum (xs : List Expr) : Expr :=
  xs.foldl .add (.const 0)

/-- The index pairs a Pyomo `Constraint(model.SCENARIOS, model.TIME, ...)` or
`Var(model.SCENARIOS, model.TIME, ...)` declaration ranges over: the cross
product of `RangeSet(0, N-1)` and `RangeSet(0, c-1)`. -/
def indexPairs (N c : ℕ) : List (ℕ × ℕ) :=
  (List.range N).flatMap fun s => (List.range c).map fun t => (s, t)

/-- The demand `Param` table (model.py lines 50–52): `demand_init(model, s, t)
= demand_scenarios[s][t]`, evaluated at every `(s, t)` of
`SCENARIOS × TIME`. -/
def demandTableOf (scen : List (List ℚ)) (N c : ℕ) : List ((ℕ × ℕ) × ℚ) :=
  (indexPairs N c).map fun p => (p, (scen.getD p.1 []).getD p.2 0)

/-- The variable declarations in source order (model.py lines 56–66); every
one is `NonNegativeReals`. -/
def varListOf (N c : ℕ) : List (PVar × VarDomain) :=
  [(PVar.wind_capacity, VarDomain.NonNegativeReals),
   (PVar.solar_capacity, VarDomain.NonNegativeReals)]
  ++ (indexPairs N c).map (fun p => (PVar.gen_wind p.1 p.2, VarDomain.NonNegativeReals))
  ++ (indexPairs N c).map (fun p => (PVar.gen_solar p.1 p.2, VarDomain.NonNegativeReals))
  ++ (indexPairs N c).map (fun p => (PVar.load_shed p.1 p.2, VarDomain.NonNegativeReals))
  ++ (List.range N).map (fun s => (PVar.excess_cost s, VarDomain.NonNegativeReals))
  ++ [(PVar.t_cvar, VarDomain.NonNegativeReals)]

/-- `wind_gen_limit_rule` (model.py lines 69–72):
`gen_wind[s,t] <= wind_capacity` for every `(s,t)`. -/
def windGenLimitOf (N c : ℕ) : List ((ℕ × ℕ) × Constr) :=
  (indexPairs N c).map fun p =>
    (p, Constr.le (.var (.gen_wind p.1 p.2)) (.var .wind_capacity))

/-- `solar_gen_limit_rule` (model.py lines 74–76):
`gen_solar[s,t] <= solar_capacity` for every `(s,t)`. -/
def solarGenLimitOf (N c : ℕ) : List ((ℕ × ℕ) × Constr) :=
  (indexPairs N c).map fun p =>
    (p, Constr.le (.var (.gen_solar p.1 p.2)) (.var .solar_capacity))

/-- `demand_rule` (model.py lines 79–81):
`demand[s,t] <= gen_wind[s,t] + gen_solar[s,t] + load_shed[s,t]`. -/
def demandConstraintOf (N c : ℕ) : List ((ℕ × ℕ) × Constr) :=
  (indexPairs N c).map fun p =>
    (p, Constr.le (.paramDemand p.1 p.2)
          (.add (.add (.var (.gen_wind p.1 p.2)) (.var (.gen_solar p.1 p.2)))
            (.var (.load_shed p.1 p.2))))

/-- `scenario_cost_rule` (model.py lines 84–90), with the local literal
`penalty_of_load_shed = 2000.0`:
`excess_cost[s] >= wind_capacity*cost_of_wind + solar_capacity*cost_of_solar
+ sum(load_shed[s,t] * 2000.0 for t in TIME)`. -/
def excessCostConstraintOf (N c : ℕ) : List (ℕ × Constr) :=
  (List.range N).map fun s =>
    (s, Constr.ge (.var (.excess_cost s))
          (.add
            (.add (.mul (.var .wind_capacity) .paramCostWind)
              (.mul (.var .solar_capacity) .paramCostSolar))
            (pySum ((List.range c).map fun t =>
              .mul (.var (.load_shed s t)) (.const 2000)))))

/-- `cvar_constraint_rule` (model.py lines 93–95):
`excess_cost[s] - t_cvar <= 0`. -/
def cvarConstraintOf (N : ℕ) : List (ℕ × Constr) :=
  (List.range N).map fun s =>
    (s, Constr.le (.sub (.var (.excess_cost s)) (.var .t_cvar)) (.const 0))

/-- `objective_rule` (model.py lines 98–105), with the local literal
`lambda_risk = 0.3`:
`avg_cost = sum(excess_cost[s] for s in SCENARIOS) / num_scenarios`,
`max_cost = max(excess_cost[s] for s in range(num_scenarios))` — Python's
builtin `max` over the variables, see `pyMax` — and the returned expression is
`avg_cost + lambda_risk * max_cost`. -/
def objectiveOf (N : ℕ) : Except PyError Expr :=
  let avg_cost : Expr :=
    .div (pySum ((List.range N).map fun s => .var (.excess_cost s))) (.const N)
  match pyMax ((List.range N).map fun s => .var (.excess_cost s)) with
  | .error e => .error e
  | .ok max_cost => .ok (.add avg_cost (.mul (.const (3 / 10)) max_cost))

/-- `build_two_stage_model(data_df, num_scenarios, alpha_cvar)` (model.py
lines 9–107).  `num_scenarios = 0` raises `ZeroDivisionError` at the
`len(data_df) // num_scenarios` division; otherwise the model is assembled in
source order: index sets (`SCENARIOS = RangeSet(0, N-1)`,
`TIME = RangeSet(0, chunk_size-1)`), the mutable cost `Param`s (1000.0 and
800.0), the demand `Param` table, the variable declarations, the five
constraint blocks, and the objective.  Python's `max` in the objective raises
`PyomoException` as soon as two scenario-cost variables are compared, in
which case no model object is produced.  `alpha_cvar` is accepted but never
read anywhere in the function body. -/
def build_two_stage_model (df : DataFrame) (num_scenarios : ℕ)
    (alpha_cvar : ℚ) : Except PyError Model :=
  if num_scenarios = 0 then .error .zeroDivisionError
  else
    let c := chunkSize df num_scenarios
    let scen := demand_scenarios df num_scenarios
    match objectiveOf num_scenarios with
    | .error e => .error e
    | .ok obj =>
      .ok { SCENARIOS := List.range num_scenarios
            TIME := List.range c
            cost_of_wind := 1000
            cost_of_solar := 800
            demand := demandTableOf scen num_scenarios c
            var_list := varListOf num_scenarios c
            wind_gen_limit := windGenLimitOf num_scenarios c
            solar_gen_limit := solarGenLimitOf num_scenarios c
            demand_constraint := demandConstraintOf num_scenarios c
            excess_cost_constraint := excessCostConstraintOf num_scenarios c
            cvar_constraint := cvarConstraintOf num_scenarios
            obj := obj }

/-- The current value of the `model.demand[s,t]` parameter of a built
model. -/
def Model.demandVal (m : Model) (s t : ℕ) : ℚ :=
  (m.demand.lookup (s, t)).getD 0

/-- Numeric value of an expression on a model under a valuation `v` of the
decision variables (the parameter nodes read the model's parameter values). -/
def Expr.eval (m : Model) (v : PVar → ℚ) : Expr → ℚ
  | .const q => q
  | .var x => v x
  | .paramDemand s t => m.demandVal s t
  | .paramCostWind => m.cost_of_wind
  | .paramCostSolar => m.cost_of_solar
  | .add a b => a.eval m v + b.eval m v
  | .sub a b => a.eval m v - b.eval m v
  | .mul a b => a.eval m v * b.eval m v
  | .div a b => a.eval m v / b.eval m v

/-- Whether a valuation satisfies a relational expression. -/
def Constr.holds (m : Model) (v : PVar → ℚ) : Constr → Bool
  | .le lhs rhs => decide (lhs.eval m v ≤ rhs.eval m v)
  | .ge lhs rhs => decide (rhs.eval m v ≤ lhs.eval m v)

/-- A feasible point of a built model: the valuation respects every variable
domain (`NonNegativeReals`) and satisfies every constraint of the five
constraint blocks. -/
def Model.feasPoint (m : Model) (v : PVar → ℚ) : Bool :=
  m.var_list.all (fun p => decide (0 ≤ v p.1))
  && m.wind_gen_limit.all (fun p => p.2.holds m v)
  && m.solar_gen_limit.all (fun p => p.2.holds m v)
  && m.demand_constraint.all (fun p => p.2.holds m v)
  && m.excess_cost_constraint.all (fun p => p.2.holds m v)
  && m.cvar_constraint.all (fun p => p.2.holds m v)

/-- The solver termination conditions the code distinguishes
(`pyomo.opt.TerminationCondition`): the two success conditions it tests for,
and the failure conditions named by the spec. -/
inductive TerminationCondition where
  | optimal : TerminationCondition
  | feasible : TerminationCondition
  | infeasible : TerminationCondition
  | unbounded : TerminationCondition
  | solverError : TerminationCondition
deriving DecidableEq, Repr, Inhabited

/-- Printable name of a termination condition. -/
def TerminationCondition.name : TerminationCondition → String
  | .optimal => "optimal"
  | .feasible => "feasible"
  | .infeasible => "infeasible"
  | .unbounded => "unbounded"
  | .solverError => "error"

/-- What `solver.solve(...)` returns, as far as the code reads it:
`results.solver.termination_condition`. -/
structure SolverResults where
  termination_condition : TerminationCondition
deriving DecidableEq, Repr, Inhabited

/-- `solve_model(model)` (model.py lines 109–121).  The external GLPK
capability is modelled as a function from invocation number to results; the
code performs exactly one blocking call (`solver.solve(model, tee=False)`,
invocation `0`), prints one classification line, and returns the pair
`(model, results)` unconditionally — every termination condition takes the
same return path and none raises. -/
def solve_model (solverCalls : ℕ → SolverResults) (model : Model) :
    (Model × SolverResults) × String :=
  let results := solverCalls 0
  let msg :=
    if results.termination_condition = TerminationCondition.optimal
        ∨ results.termination_condition = TerminationCondition.feasible then
      "Solver finished with a feasible/optimal solution."
    else
      "Solver finished with status: " ++ results.termination_condition.name
  ((model, results), msg)

/-- The numeric results main.py prints. -/
structure ExtractOut where
  windCapacity : ℚ
  solarCapacity : ℚ
  scenarioCosts : List ℚ
  objectiveValue : ℚ
deriving DecidableEq, Repr, Inhabited

/-- The result-extraction section of `main()` (main.py lines 26–35): after
`model, results = solve_model(model)` it reads `model.wind_capacity.value`,
`model.solar_capacity.value`, `[model.excess_cost[s].value for s in
model.SCENARIOS]` and evaluates `model.obj.expr()`.  The variable values the
solver left on the model are the valuation `v`; the `results` object is in
scope but never consulted. -/
def extract_results (model : Model) (results : SolverResults)
    (v : PVar → ℚ) : ExtractOut :=
  { windCapacity := v .wind_capacity
    solarCapacity := v .solar_capacity
    scenarioCosts := model.SCENARIOS.map fun s => v (.excess_cost s)
    objectiveValue := model.obj.eval model v }

/-! ## Concrete fixtures used by witnesses and counterexamples -/

/-- The L = 11, N = 5 example frame from the spec (demands 0,…,10). -/
def df11 : DataFrame :=
  ⟨(List.range 11).map fun i => ⟨"", (i : ℚ), []⟩⟩

/-- A one-row frame (demand 3). -/
def dfUnit : DataFrame :=
  ⟨[⟨"", 3, []⟩]⟩

/-- A two-row frame with demands 5 and 7. -/
def dfA : DataFrame :=
  ⟨[⟨"h0", 5, []⟩, ⟨"h1", 7, []⟩]⟩

/-- The model built from `dfA` with one scenario (see `build_dfA_eq`). -/
def mA : Model :=
  { SCENARIOS := [0]
    TIME := [0, 1]
    cost_of_wind := 1000
    cost_of_solar := 800
    demand := [((0, 0), 5), ((0, 1), 7)]
    var_list := varListOf 1 2
    wind_gen_limit := windGenLimitOf 1 2
    solar_gen_limit := solarGenLimitOf 1 2
    demand_constraint := demandConstraintOf 1 2
    excess_cost_constraint := excessCostConstraintOf 1 2
    cvar_constraint := cvarConstraintOf 1
    obj := .add (.div (pySum [.var (.excess_cost 0)]) (.const ((1 : ℕ) : ℚ)))
             (.mul (.const (3 / 10)) (.var (.excess_cost 0))) }

/-- The model built from `dfUnit` with one scenario (see `build_dfUnit_eq`). -/
def mUnit : Model :=
  { SCENARIOS := [0]
    TIME := [0]
    cost_of_wind := 1000
    cost_of_solar := 800
    demand := [((0, 0), 3)]
    var_list := varListOf 1 1
    wind_gen_limit := windGenLimitOf 1 1
    solar_gen_limit := solarGenLimitOf 1 1
    demand_constraint := demandConstraintOf 1 1
    excess_cost_constraint := excessCostConstraintOf 1 1
    cvar_constraint := cvarConstraintOf 1
    obj := .add (.div (pySum [.var (.excess_cost 0)]) (.const ((1 : ℕ) : ℚ)))
             (.mul (.const (3 / 10)) (.var (.excess_cost 0))) }

/-- A feasible point of `mA`: wind capacity 7, wind generation tracking the
demand (5, 7), no solar, no shedding, scenario cost 7000 = 7·1000, CVaR
threshold 7000. -/
def vA : PVar → ℚ
  | .wind_capacity => 7
  | .gen_wind _ t => if t = 0 then 5 else 7
  | .excess_cost _ => 7000
  | .t_cvar => 7000
  | _ => 0

/-- Same demand values as `dfB2` on the rows the builder uses, but different
timestamps and different extra columns. -/
def dfB1 : DataFrame :=
  ⟨[⟨"a", 5, [1]⟩, ⟨"b", 7, [2]⟩]⟩

/-- Same demand values as `dfB1` on the rows the builder uses, but different
timestamps and different extra columns. -/
def dfB2 : DataFrame :=
  ⟨[⟨"x", 5, []⟩, ⟨"y", 7, [9, 9]⟩]⟩

/-! ## Basic facts about the scenario builder -/

lemma build_dfA_eq : build_two_stage_model dfA 1 (19 / 20) = Except.ok mA := rfl

lemma build_dfUnit_eq :
    build_two_stage_model dfUnit 1 (19 / 20) = Except.ok mUnit := rfl

lemma demandSeries_length (df : DataFrame) :
    df.demandSeries.length = df.rows.length := by
  simp [DataFrame.demandSeries]

lemma demand_scenarios_length (df : DataFrame) (N : ℕ) :
    (demand_scenarios df N).length = N := by
  simp [demand_scenarios]

lemma demand_scenarios_getD (df : DataFrame) (N s : ℕ) (hs : s < N) :
    (demand_scenarios df N).getD s [] =
      ((df.rows.drop (s * chunkSize df N)).take (chunkSize df N)).map
        (·.demand) := by
  unfold demand_scenarios
  have h1 : s < ((List.range N).map fun i =>
      ((df.rows.drop (i * chunkSize df N)).take (chunkSize df N)).map
        (·.demand)).length := by
    simpa using hs
  rw [List.getD_eq_getElem _ _ h1, List.getElem_map, List.getElem_range]

/-- The scenario slices, expressed over the demand column instead of the
rows: slicing the rows then projecting `demand` is projecting first and
slicing then. -/
lemma demand_scenarios_eq_series (df : DataFrame) (N s : ℕ) (hs : s < N) :
    (demand_scenarios df N).getD s [] =
      (df.demandSeries.drop (s * chunkSize df N)).take (chunkSize df N) := by
  rw [demand_scenarios_getD df N s hs, DataFrame.demandSeries,
    List.map_take, List.map_drop]

/-- C2: with `T = ⌊L/N⌋ ≥ 1` and `N ≥ 1`, the builder yields exactly `N`
scenarios; scenario `s` (for `s < N`) is the demand series restricted to
indices `[s·T, (s+1)·T)`, has length `T`, `N·T ≤ L` elements are used and the
final `L mod N` elements are discarded. -/
theorem scenario_builder_blocks (df : DataFrame) (N s : ℕ)
    (hN : 1 ≤ N) (hT : 1 ≤ df.rows.length / N) (hs : s < N) :
    (demand_scenarios df N).length = N ∧
    (demand_scenarios df N).getD s [] =
      (df.demandSeries.drop (s * (df.rows.length / N))).take
        (df.rows.length / N) ∧
    ((demand_scenarios df N).getD s []).length = df.rows.length / N ∧
    N * (df.rows.length / N) ≤ df.rows.length ∧
    df.rows.length - N * (df.rows.length / N) = df.rows.length % N := by
  have hNc : N * (df.rows.length / N) ≤ df.rows.length := by
    rw [Nat.mul_comm]
    exact Nat.div_mul_le_self df.rows.length N
  have hsc : s * (df.rows.length / N) + df.rows.length / N
      ≤ N * (df.rows.length / N) := by
    have h2 := Nat.mul_le_mul_right (df.rows.length / N) hs
    simpa [Nat.succ_mul] using h2
  refine ⟨demand_scenarios_length df N, demand_scenarios_eq_series df N s hs,
    ?_, hNc, ?_⟩
  · rw [demand_scenarios_getD df N s hs]
    simp only [List.length_map, List.length_take, List.length_drop, chunkSize]
    omega
  · have := Nat.div_add_mod df.rows.length N
    omega

/-- Witness for `scenario_builder_blocks` at L = 11, N = 5, s = 2:
T = 2, 10 elements used, 1 discarded. -/
theorem scenario_builder_blocks_witness :
    (1 ≤ 5 ∧ 1 ≤ df11.rows.length / 5 ∧ 2 < 5) ∧
    ((demand_scenarios df11 5).length = 5 ∧
     (demand_scenarios df11 5).getD 2 [] =
       (df11.demandSeries.drop (2 * (df11.rows.length / 5))).take
         (df11.rows.length / 5) ∧
     ((demand_scenarios df11 5).getD 2 []).length = df11.rows.length / 5 ∧
     5 * (df11.rows.length / 5) ≤ df11.rows.length ∧
     df11.rows.length - 5 * (df11.rows.length / 5) = df11.rows.length % 5) :=
  ⟨⟨by decide, by decide, by decide⟩,
    scenario_builder_blocks df11 5 2 (by decide) (by decide) (by decide)⟩

/-! ## Destructuring a successful build -/

lemma mem_indexPairs (N c s t : ℕ) :
    (s, t) ∈ indexPairs N c ↔ s < N ∧ t < c := by
  simp [indexPairs]

/-- Whenever `build_two_stage_model` returns a model, the model's fields are
exactly the blocks assembled from `N` and `chunk_size`. -/
lemma build_ok_fields (df : DataFrame) (N : ℕ) (a : ℚ) (m : Model)
    (h : build_two_stage_model df N a = Except.ok m) :
    m.SCENARIOS = List.range N ∧
    m.TIME = List.range (chunkSize df N) ∧
    m.cost_of_wind = 1000 ∧
    m.cost_of_solar = 800 ∧
    m.demand = demandTableOf (demand_scenarios df N) N (chunkSize df N) ∧
    m.var_list = varListOf N (chunkSize df N) ∧
    m.wind_gen_limit = windGenLimitOf N (chunkSize df N) ∧
    m.solar_gen_limit = solarGenLimitOf N (chunkSize df N) ∧
    m.demand_constraint = demandConstraintOf N (chunkSize df N) ∧
    m.excess_cost_constraint = excessCostConstraintOf N (chunkSize df N) ∧
    m.cvar_constraint = cvarConstraintOf N := by
  unfold build_two_stage_model at h
  split at h
  · exact absurd h (by simp)
  · split at h
    · exact absurd h (by simp)
    · rw [Except.ok.injEq] at h
      subst h
      exact ⟨rfl, rfl, rfl, rfl, rfl, rfl, rfl, rfl, rfl, rfl, rfl⟩

/-- Unpacking `Model.feasPoint`: each block of constraints holds and every
variable respects its nonnegative domain. -/
lemma feasPoint_spec {m : Model} {v : PVar → ℚ} (h : m.feasPoint v = true) :
    (∀ p ∈ m.var_list, 0 ≤ v p.1) ∧
    (∀ p ∈ m.wind_gen_limit, p.2.holds m v = true) ∧
    (∀ p ∈ m.solar_gen_limit, p.2.holds m v = true) ∧
    (∀ p ∈ m.demand_constraint, p.2.holds m v = true) ∧
    (∀ p ∈ m.excess_cost_constraint, p.2.holds m v = true) ∧
    (∀ p ∈ m.cvar_constraint, p.2.holds m v = true) := by
  simp only [Model.feasPoint, Bool.and_eq_true, List.all_eq_true,
    decide_eq_true_eq] at h
  exact ⟨h.1.1.1.1.1, h.1.1.1.1.2, h.1.1.1.2, h.1.1.2, h.1.2, h.2⟩

/-- Evaluating a Python `sum` of expressions gives the sum of the values. -/
lemma eval_pySum (m : Model) (v : PVar → ℚ) (xs : List Expr) :
    (pySum xs).eval m v = (xs.map fun e => e.eval m v).sum := by
  suffices h : ∀ (e : Expr) (ys : List Expr),
      (ys.foldl .add e).eval m v
        = e.eval m v + (ys.map fun x => x.eval m v).sum by
    simpa [pySum, Expr.eval] using h (.const 0) xs
  intro e ys
  induction ys generalizing e with
  | nil => simp
  | cons x ys ih =>
    rw [List.foldl_cons, ih (e.add x)]
    simp [Expr.eval]
    ring

lemma tcvar_mem_varList (N c : ℕ) :
    (PVar.t_cvar, VarDomain.NonNegativeReals) ∈ varListOf N c := by
  simp [varListOf]

lemma excess_mem_varList (N c s : ℕ) (hs : s < N) :
    (PVar.excess_cost s, VarDomain.NonNegativeReals) ∈ varListOf N c := by
  simp [varListOf]
  exact hs

/-- The concrete point `vA` is feasible for `mA`. -/
lemma mA_feasPoint : mA.feasPoint vA = true := by
  simp [Model.feasPoint, mA, varListOf, windGenLimitOf, solarGenLimitOf,
    demandConstraintOf, excessCostConstraintOf, cvarConstraintOf, indexPairs,
    Constr.holds, Expr.eval, Model.demandVal, vA, pySum, List.lookup]
  norm_num
  decide

/-! ## Objective construction (claim C1) -/

/-- C1: the objective is *not* built as mean plus `lambda_risk` times max —
on the two-row frame with demands 1, 2 and `num_scenarios = 2`
(`alpha_cvar = 0.95`), evaluating `objective_rule` raises `PyomoException`,
because Python's builtin `max` truth-tests a comparison of the two
non-constant `excess_cost` variables; `build_two_stage_model` therefore
produces no model at all whenever `num_scenarios ≥ 2`. -/
theorem objective_max_raises_pyomo_exception :
    build_two_stage_model ⟨[⟨"", 1, []⟩, ⟨"", 2, []⟩]⟩ 2 (19 / 20)
      = Except.error PyError.pyomoException := rfl

/-! ## Demand balance constraints (claim C3) -/

/-- C3: every built model contains, for every scenario `s` and time `t`, the
constraint `demand[s,t] <= gen_wind[s,t] + gen_solar[s,t] + load_shed[s,t]`,
and hence at any feasible point the demand is served up to shedding. -/
theorem demand_balance_in_model (df : DataFrame) (N : ℕ) (a : ℚ) (m : Model)
    (s t : ℕ) (v : PVar → ℚ)
    (h : build_two_stage_model df N a = Except.ok m)
    (hs : s ∈ m.SCENARIOS) (ht : t ∈ m.TIME) (hv : m.feasPoint v = true) :
    ((s, t), Constr.le (.paramDemand s t)
        (.add (.add (.var (.gen_wind s t)) (.var (.gen_solar s t)))
          (.var (.load_shed s t)))) ∈ m.demand_constraint ∧
    m.demandVal s t
      ≤ v (.gen_wind s t) + v (.gen_solar s t) + v (.load_shed s t) := by
  obtain ⟨hS, hT, -, -, -, -, -, -, hd, -, -⟩ := build_ok_fields df N a m h
  have hst : (s, t) ∈ indexPairs N (chunkSize df N) :=
    (mem_indexPairs N (chunkSize df N) s t).mpr
      ⟨by simpa [hS] using hs, by simpa [hT] using ht⟩
  have hmem : ((s, t), Constr.le (.paramDemand s t)
      (.add (.add (.var (.gen_wind s t)) (.var (.gen_solar s t)))
        (.var (.load_shed s t)))) ∈ m.demand_constraint := by
    rw [hd]
    exact List.mem_map.mpr ⟨(s, t), hst, rfl⟩
  refine ⟨hmem, ?_⟩
  have hh := (feasPoint_spec hv).2.2.2.1 _ hmem
  simpa [Constr.holds, Expr.eval] using hh

/-- Witness for `demand_balance_in_model` at `dfA`, one scenario, `s = 0`,
`t = 1`, with the feasible point `vA`. -/
theorem demand_balance_in_model_witness :
    (build_two_stage_model dfA 1 (19 / 20) = Except.ok mA ∧
     0 ∈ mA.SCENARIOS ∧ 1 ∈ mA.TIME ∧ mA.feasPoint vA = true) ∧
    (((0, 1), Constr.le (.paramDemand 0 1)
        (.add (.add (.var (.gen_wind 0 1)) (.var (.gen_solar 0 1)))
          (.var (.load_shed 0 1)))) ∈ mA.demand_constraint ∧
     mA.demandVal 0 1
       ≤ vA (.gen_wind 0 1) + vA (.gen_solar 0 1) + vA (.load_shed 0 1)) :=
  ⟨⟨build_dfA_eq, by decide, by decide, mA_feasPoint⟩,
   demand_balance_in_model dfA 1 (19 / 20) mA 0 1 vA build_dfA_eq
     (by decide) (by decide) mA_feasPoint⟩

/-! ## Generation-capacity coupling (claim C4) -/

/-- C4: every built model contains, for every scenario `s` and time `t`, the
constraints `gen_wind[s,t] <= wind_capacity` and
`gen_solar[s,t] <= solar_capacity`, so at any feasible point generation never
exceeds the first-stage capacities. -/
theorem generation_capacity_coupling (df : DataFrame) (N : ℕ) (a : ℚ)
    (m : Model) (s t : ℕ) (v : PVar → ℚ)
    (h : build_two_stage_model df N a = Except.ok m)
    (hs : s ∈ m.SCENARIOS) (ht : t ∈ m.TIME) (hv : m.feasPoint v = true) :
    ((s, t), Constr.le (.var (.gen_wind s t)) (.var .wind_capacity))
      ∈ m.wind_gen_limit ∧
    ((s, t), Constr.le (.var (.gen_solar s t)) (.var .solar_capacity))
      ∈ m.solar_gen_limit ∧
    v (.gen_wind s t) ≤ v .wind_capacity ∧
    v (.gen_solar s t) ≤ v .solar_capacity := by
  obtain ⟨hS, hT, -, -, -, -, hw, hso, -, -, -⟩ := build_ok_fields df N a m h
  have hst : (s, t) ∈ indexPairs N (chunkSize df N) :=
    (mem_indexPairs N (chunkSize df N) s t).mpr
      ⟨by simpa [hS] using hs, by simpa [hT] using ht⟩
  have hmw : ((s, t), Constr.le (.var (.gen_wind s t)) (.var .wind_capacity))
      ∈ m.wind_gen_limit := by
    rw [hw]
    exact List.mem_map.mpr ⟨(s, t), hst, rfl⟩
  have hms : ((s, t), Constr.le (.var (.gen_solar s t)) (.var .solar_capacity))
      ∈ m.solar_gen_limit := by
    rw [hso]
    exact List.mem_map.mpr ⟨(s, t), hst, rfl⟩
  have hhw := (feasPoint_spec hv).2.1 _ hmw
  have hhs := (feasPoint_spec hv).2.2.1 _ hms
  exact ⟨hmw, hms, by simpa [Constr.holds, Expr.eval] using hhw,
    by simpa [Constr.holds, Expr.eval] using hhs⟩

/-- Witness for `generation_capacity_coupling` at `dfA`, one scenario,
`s = 0`, `t = 0`, with the feasible point `vA`. -/
theorem generation_capacity_coupling_witness :
    (build_two_stage_model dfA 1 (19 / 20) = Except.ok mA ∧
     0 ∈ mA.SCENARIOS ∧ 0 ∈ mA.TIME ∧ mA.feasPoint vA = true) ∧
    (((0, 0), Constr.le (.var (.gen_wind 0 0)) (.var .wind_capacity))
       ∈ mA.wind_gen_limit ∧
     ((0, 0), Constr.le (.var (.gen_solar 0 0)) (.var .solar_capacity))
       ∈ mA.solar_gen_limit ∧
     vA (.gen_wind 0 0) ≤ vA .wind_capacity ∧
     vA (.gen_solar 0 0) ≤ vA .solar_capacity) :=
  ⟨⟨build_dfA_eq, by decide, by decide, mA_feasPoint⟩,
   generation_capacity_coupling dfA 1 (19 / 20) mA 0 0 vA build_dfA_eq
     (by decide) (by decide) mA_feasPoint⟩

/-! ## Scenario cost accounting and CVaR bound (claim C5) -/

/-- C5: every built model contains, for every scenario `s`, the
cost-accounting constraint `excess_cost[s] >= wind_capacity*cost_of_wind +
solar_capacity*cost_of_solar + sum_t load_shed[s,t]*2000` and the CVaR bound
`excess_cost[s] - t_cvar <= 0` (i.e. `excess_cost[s] <= t_cvar`), with
`excess_cost[s]` and `t_cvar` declared as nonnegative variables; at any
feasible point the corresponding numeric inequalities and nonnegativity
hold. -/
theorem scenario_cost_and_cvar_bound (df : DataFrame) (N : ℕ) (a : ℚ)
    (m : Model) (s : ℕ) (v : PVar → ℚ)
    (h : build_two_stage_model df N a = Except.ok m)
    (hs : s ∈ m.SCENARIOS) (hv : m.feasPoint v = true) :
    (s, Constr.ge (.var (.excess_cost s))
        (.add
          (.add (.mul (.var .wind_capacity) .paramCostWind)
            (.mul (.var .solar_capacity) .paramCostSolar))
          (pySum (m.TIME.map fun t =>
            .mul (.var (.load_shed s t)) (.const 2000)))))
      ∈ m.excess_cost_constraint ∧
    (s, Constr.le (.sub (.var (.excess_cost s)) (.var .t_cvar)) (.const 0))
      ∈ m.cvar_constraint ∧
    (PVar.excess_cost s, VarDomain.NonNegativeReals) ∈ m.var_list ∧
    (PVar.t_cvar, VarDomain.NonNegativeReals) ∈ m.var_list ∧
    v .wind_capacity * m.cost_of_wind + v .solar_capacity * m.cost_of_solar
        + (m.TIME.map fun t => v (.load_shed s t) * 2000).sum
      ≤ v (.excess_cost s) ∧
    v (.excess_cost s) ≤ v .t_cvar ∧
    0 ≤ v (.excess_cost s) ∧ 0 ≤ v .t_cvar := by
  obtain ⟨hS, hT, -, -, -, hvl, -, -, -, he, hc⟩ := build_ok_fields df N a m h
  have hsN : s < N := by simpa [hS] using hs
  have hme : (s, Constr.ge (.var (.excess_cost s))
      (.add
        (.add (.mul (.var .wind_capacity) .paramCostWind)
          (.mul (.var .solar_capacity) .paramCostSolar))
        (pySum (m.TIME.map fun t =>
          .mul (.var (.load_shed s t)) (.const 2000)))))
      ∈ m.excess_cost_constraint := by
    rw [he, hT]
    exact List.mem_map.mpr ⟨s, by simpa using hsN, rfl⟩
  have hmc : (s, Constr.le (.sub (.var (.excess_cost s)) (.var .t_cvar))
      (.const 0)) ∈ m.cvar_constraint := by
    rw [hc]
    exact List.mem_map.mpr ⟨s, by simpa using hsN, rfl⟩
  have hmex : (PVar.excess_cost s, VarDomain.NonNegativeReals) ∈ m.var_list :=
    by rw [hvl]; exact excess_mem_varList N (chunkSize df N) s hsN
  have hmtc : (PVar.t_cvar, VarDomain.NonNegativeReals) ∈ m.var_list := by
    rw [hvl]; exact tcvar_mem_varList N (chunkSize df N)
  obtain ⟨hdom, -, -, -, hall, hcall⟩ := feasPoint_spec hv
  have hhe := hall _ hme
  have hhc := hcall _ hmc
  refine ⟨hme, hmc, hmex, hmtc, ?_, ?_, hdom _ hmex, hdom _ hmtc⟩
  · simp only [Constr.holds, decide_eq_true_eq, Expr.eval, eval_pySum,
      List.map_map, Function.comp_def] at hhe
    linarith [hhe]
  · simp only [Constr.holds, decide_eq_true_eq, Expr.eval] at hhc
    linarith [hhc]

/-- Witness for `scenario_cost_and_cvar_bound` at `dfA`, one scenario,
`s = 0`, with the feasible point `vA`. -/
theorem scenario_cost_and_cvar_bound_witness :
    (build_two_stage_model dfA 1 (19 / 20) = Except.ok mA ∧
     0 ∈ mA.SCENARIOS ∧ mA.feasPoint vA = true) ∧
    ((0, Constr.ge (.var (.excess_cost 0))
        (.add
          (.add (.mul (.var .wind_capacity) .paramCostWind)
            (.mul (.var .solar_capacity) .paramCostSolar))
          (pySum (mA.TIME.map fun t =>
            .mul (.var (.load_shed 0 t)) (.const 2000)))))
       ∈ mA.excess_cost_constraint ∧
     (0, Constr.le (.sub (.var (.excess_cost 0)) (.var .t_cvar)) (.const 0))
       ∈ mA.cvar_constraint ∧
     (PVar.excess_cost 0, VarDomain.NonNegativeReals) ∈ mA.var_list ∧
     (PVar.t_cvar, VarDomain.NonNegativeReals) ∈ mA.var_list ∧
     vA .wind_capacity * mA.cost_of_wind
         + vA .solar_capacity * mA.cost_of_solar
         + (mA.TIME.map fun t => vA (.load_shed 0 t) * 2000).sum
       ≤ vA (.excess_cost 0) ∧
     vA (.excess_cost 0) ≤ vA .t_cvar ∧
     0 ≤ vA (.excess_cost 0) ∧ 0 ≤ vA .t_cvar) :=
  ⟨⟨build_dfA_eq, by decide, mA_feasPoint⟩,
   scenario_cost_and_cvar_bound dfA 1 (19 / 20) mA 0 vA build_dfA_eq
     (by decide) mA_feasPoint⟩

/-! ## Configuration validation (claim C6) -/

/-- C6 counterexample: with `alpha_cvar = 1.0` (outside the open interval
(0,1)) and `num_scenarios = 1`, construction succeeds — no
`ConfigurationError` (indeed no error at all) is raised. -/
theorem alpha_one_builds_without_error :
    (build_two_stage_model dfUnit 1 1).toOption.isSome = true := by decide

/-- C6 amended: construction performs no configuration validation and knows
no `ConfigurationError`: `num_scenarios = 0` raises `ZeroDivisionError` at
the floor division `len(data_df) // num_scenarios` (before any solve), while
`alpha_cvar` and `T` are never checked — with `num_scenarios = 1`,
`alpha_cvar = 1.0` and an empty series (so `T = 0`) a model is still
built. -/
theorem no_configuration_error_validation :
    (∀ (df : DataFrame) (a : ℚ),
      build_two_stage_model df 0 a = Except.error PyError.zeroDivisionError) ∧
    (build_two_stage_model ⟨[]⟩ 1 1).toOption.isSome = true :=
  ⟨fun df a => rfl, by decide⟩

/-! ## Solver adapter (claim C7) -/

/-- C7: `solve_model` returns the pair `(model, results)` for every solver
termination status — `Infeasible`, `Unbounded` and solver errors included —
without raising, and its result depends only on the single first solver
invocation (no retry is performed). -/
theorem solve_model_surfaces_status (f : ℕ → SolverResults) (m : Model) :
    (solve_model f m).1 = (m, f 0) ∧
    solve_model f m = solve_model (fun k => f 0) m :=
  ⟨rfl, rfl⟩

/-! ## Result extraction (claim C8) -/

/-- C8 counterexample: extraction after an `Infeasible` solve returns a plain
numeric result instead of failing with `PreconditionViolation`. -/
theorem extraction_succeeds_on_infeasible :
    extract_results mUnit ⟨TerminationCondition.infeasible⟩ (fun x => 0)
      = ⟨0, 0, [0], 0⟩ := by
  simp [extract_results, mUnit, Expr.eval, pySum]

/-- C8 amended: result extraction never consults the solve status and never
fails — for every status it returns the wind capacity, the solar capacity,
the per-scenario costs in scenario-index order, and the objective value, as a
pure read of the model and its variable values. -/
theorem extraction_ignores_status (m : Model) (r1 r2 : SolverResults)
    (v : PVar → ℚ) :
    extract_results m r1 v = extract_results m r2 v ∧
    extract_results m r1 v =
      ⟨v .wind_capacity, v .solar_capacity,
       m.SCENARIOS.map (fun s => v (.excess_cost s)), m.obj.eval m v⟩ :=
  ⟨rfl, rfl⟩

/-! ## The build reads only the used demand prefix (claim C10) -/

lemma take_drop_take {α : Type} (l : List α) (a b k : ℕ) (h : a + b ≤ k) :
    ((l.take k).drop a).take b = (l.drop a).take b := by
  rw [List.drop_take, List.take_take, min_eq_left (by omega)]

/-- The build only looks at the frame through `chunk_size` and the scenario
slices. -/
lemma build_congr (df1 df2 : DataFrame) (N : ℕ) (a1 a2 : ℚ)
    (hc : chunkSize df1 N = chunkSize df2 N)
    (hs : demand_scenarios df1 N = demand_scenarios df2 N) :
    build_two_stage_model df1 N a1 = build_two_stage_model df2 N a2 := by
  unfold build_two_stage_model
  rw [hc, hs]

/-- C10: the built model depends only on `num_scenarios` and the demand
column of the first `N·⌊L/N⌋` rows: frames agreeing there (whatever their
timestamps, other columns or trailing remainder rows) build identical
results. -/
theorem build_depends_only_on_used_demand (df1 df2 : DataFrame) (N : ℕ)
    (a : ℚ)
    (h : df1.demandSeries.take (N * (df1.rows.length / N))
       = df2.demandSeries.take (N * (df2.rows.length / N))) :
    build_two_stage_model df1 N a = build_two_stage_model df2 N a := by
  by_cases h0 : N = 0
  · subst h0
    rfl
  · have hN : 0 < N := Nat.pos_of_ne_zero h0
    have hb1 : N * (df1.rows.length / N) ≤ df1.rows.length := by
      rw [Nat.mul_comm]
      exact Nat.div_mul_le_self _ _
    have hb2 : N * (df2.rows.length / N) ≤ df2.rows.length := by
      rw [Nat.mul_comm]
      exact Nat.div_mul_le_self _ _
    have hlen := congrArg List.length h
    simp only [List.length_take, demandSeries_length] at hlen
    have hprod : N * (df1.rows.length / N) = N * (df2.rows.length / N) := by
      omega
    have hc : chunkSize df1 N = chunkSize df2 N :=
      Nat.eq_of_mul_eq_mul_left hN hprod
    have h' : df1.demandSeries.take (N * chunkSize df1 N)
        = df2.demandSeries.take (N * chunkSize df2 N) := h
    rw [hc] at h'
    have hscen : demand_scenarios df1 N = demand_scenarios df2 N := by
      apply List.ext_getElem
      · rw [demand_scenarios_length, demand_scenarios_length]
      · intro i hi1 hi2
        have hiN : i < N := by
          rwa [demand_scenarios_length] at hi1
        have hstep : i * chunkSize df2 N + chunkSize df2 N
            ≤ N * chunkSize df2 N := by
          have h2 := Nat.mul_le_mul_right (chunkSize df2 N)
            (show i + 1 ≤ N from hiN)
          simpa [Nat.succ_mul] using h2
        have g1 : (demand_scenarios df1 N)[i] =
            (df1.demandSeries.drop (i * chunkSize df1 N)).take
              (chunkSize df1 N) := by
          rw [← List.getD_eq_getElem _ [] hi1]
          exact demand_scenarios_eq_series df1 N i hiN
        have g2 : (demand_scenarios df2 N)[i] =
            (df2.demandSeries.drop (i * chunkSize df2 N)).take
              (chunkSize df2 N) := by
          rw [← List.getD_eq_getElem _ [] hi2]
          exact demand_scenarios_eq_series df2 N i hiN
        rw [g1, g2, hc,
          ← take_drop_take df1.demandSeries (i * chunkSize df2 N)
            (chunkSize df2 N) (N * chunkSize df2 N) hstep,
          ← take_drop_take df2.demandSeries (i * chunkSize df2 N)
            (chunkSize df2 N) (N * chunkSize df2 N) hstep,
          h']
    exact build_congr df1 df2 N a a hc hscen

/-- Witness for `build_depends_only_on_used_demand`: `dfB1` and `dfB2` share
the demand values 5, 7 on the used rows but differ in timestamps and extra
columns; the builds coincide. -/
theorem build_depends_only_on_used_demand_witness :
    (dfB1.demandSeries.take (1 * (dfB1.rows.length / 1))
       = dfB2.demandSeries.take (1 * (dfB2.rows.length / 1))) ∧
    build_two_stage_model dfB1 1 (19 / 20)
      = build_two_stage_model dfB2 1 (19 / 20) :=
  ⟨by decide,
   build_depends_only_on_used_demand dfB1 dfB2 1 (19 / 20) (by decide)⟩

/-! ## Independence from alpha_cvar (claim C9) -/

/-- C9: the build result is completely independent of `alpha_cvar` — for any
demand frame and scenario count, any two values of the parameter (inside or
outside (0,1)) yield identical results. -/
theorem build_independent_of_alpha_cvar (df : DataFrame) (N : ℕ)
    (a1 a2 : ℚ) :
    build_two_stage_model df N a1 = build_two_stage_model df N a2 := rfl

end Portfolio
